import Mathlib

/-!
Verification development for the Trax repository core
(src/trax/backend.py, src/trax/shapes.py, src/trax/models/research/reformer.py).

Conventions of the shallow embedding:
  * Tensors are modelled extensionally.  Where only element-wise group
    arithmetic matters (the reversible residual layers) a tensor is an
    element of an arbitrary additive commutative group.  Where reshaping
    matters (Chunk/Unchunk) a tensor is a shape together with its
    row-major flat data, because numpy reshape keeps the flat order.
  * Python exceptions (ValueError, AssertionError, IndexError) are
    modelled with Except String.
  * The automatic-differentiation engine (jax.vjp) cannot be translated;
    following the spec, each sub-layer of a reversible block carries its
    own vector-Jacobian-product functions as part of its interface, and
    the vjp of a combinator is assembled from them exactly as the engine
    assembles it from the combinator structure.
-/

namespace Trax

/-- Boolean test that an Except value is an error (a raised exception). -/
def exceptIsError {ε β : Type} : Except ε β → Bool
  | .error _ => true
  | .ok _ => false

/-- Boolean test that an Except value is a normal return. -/
def exceptIsOk {ε β : Type} : Except ε β → Bool
  | .error _ => false
  | .ok _ => true

/-! ## Backend shim (src/trax/backend.py) -/

/-- The two array/gradient providers the shim selects between:
the dictionaries JAX-BACKEND and NUMPY-BACKEND of src/trax/backend.py. -/
inductive Provider where
  | jax
  | numpy
deriving DecidableEq

/-- The module-level variable override-backend-name of src/trax/backend.py
(line 332): None initially, set by use_backend. -/
abbrev BackendState := Option String

/-- Python truthiness of the override variable: None and the empty string
are falsy, so they leave the name argument in force (line 337). -/
def overrideActive (st : BackendState) : Bool :=
  match st with
  | none => false
  | some o => o ≠ ""

/-- The function backend(name) of src/trax/backend.py lines 335-340:
the name argument is replaced by the override when that is truthy, then
the provider is numpy exactly when the effective name is the string
numpy, and jax in every other case.  The function is total: there is no
error branch for unknown names. -/
def backend (st : BackendState) (name : String) : Provider :=
  let effective := if overrideActive st then (st.getD name) else name
  if effective = "numpy" then Provider.numpy else Provider.jax

/-- The default value of the name argument of backend (line 336). -/
def backendDefaultName : String := "jax"

/-- The zero-argument call backend() as it appears throughout the module. -/
def backend0 (st : BackendState) : Provider :=
  backend st backendDefaultName

/-- The context manager use_backend(name) of src/trax/backend.py lines
343-352, as a state transformer: the body runs with the override set to
name, and the finally clause restores the previous override value whether
the body returned normally or raised.  The body is modelled as a function
from the override state to a result (normal value or exception) together
with the override state it leaves behind. -/
def use_backend {ε β : Type} (name : String)
    (body : BackendState → Except ε β × BackendState) (st : BackendState) :
    Except ε β × BackendState :=
  let prev := st
  let res := body (some name)
  (res.1, prev)

/-! ## Shape/dtype descriptor (src/trax/shapes.py) -/

/-- Element-type tags for arrays (numpy dtypes, abstracted). -/
inductive Dtype where
  | float32
  | int32
  | bool32
deriving DecidableEq

/-- The class ShapeDtype of src/trax/shapes.py lines 25-34: a pair of a
shape and a dtype.  The Python class defines only the constructor and a
repr; no operation of the repository mutates an instance after
construction, which the pure structure captures by construction. -/
structure ShapeDtype where
  shape : List Nat
  dtype : Dtype
deriving DecidableEq

/-- An array-like object as far as shape-dtype extraction is concerned:
anything carrying a shape and a dtype attribute. -/
structure NdLike where
  shape : List Nat
  dtype : Dtype
deriving DecidableEq

/-- The function shape_dtype_for(obj) of src/trax/shapes.py lines 37-39:
returns a ShapeDtype with the shape and dtype of obj. -/
def shape_dtype_for (obj : NdLike) : ShapeDtype :=
  ShapeDtype.mk obj.shape obj.dtype

/-! ## Chunk and Unchunk (src/trax/models/research/reformer.py lines 173-190) -/

/-- An ndarray modelled as its shape together with its row-major flat
data.  numpy reshape never touches the flat data in row-major order, it
only replaces the shape, so the two reshaping layers below act on the
shape component alone. -/
structure NdArray where
  shape : List Nat
  data : List Int
deriving DecidableEq

/-- The layer Chunk of reformer.py lines 173-180: asserts that the
sequence-length dimension (axis 1) is divisible by n_sections, then
reshapes (d0, d1, rest) to (d0 * n, d1 / n, rest).  A rank below 2 would
raise an IndexError at x.shape[1]; the failed assert raises
AssertionError. -/
def Chunk (n_sections : Nat) (x : NdArray) : Except String NdArray :=
  match x.shape with
  | d0 :: d1 :: rest =>
    if d1 % n_sections = 0 then
      Except.ok (NdArray.mk (d0 * n_sections :: d1 / n_sections :: rest) x.data)
    else
      Except.error "AssertionError: x.shape[1] percent n_sections == 0"
  | _ => Except.error "IndexError: x.shape[1]"

/-- The layer Unchunk of reformer.py lines 183-190: asserts that the
batch dimension (axis 0) is divisible by n_sections, then reshapes
(d0, d1, rest) to (d0 / n, d1 * n, rest). -/
def Unchunk (n_sections : Nat) (x : NdArray) : Except String NdArray :=
  match x.shape with
  | d0 :: d1 :: rest =>
    if d0 % n_sections = 0 then
      Except.ok (NdArray.mk (d0 / n_sections :: d1 * n_sections :: rest) x.data)
    else
      Except.error "AssertionError: x.shape[0] percent n_sections == 0"
  | _ => Except.error "IndexError: x.shape[1]"

/-! ## BroadcastedDropout (reformer.py lines 90-108) -/

/-- The layer BroadcastedDropout of reformer.py lines 90-108.  The rate
is a real-valued dropout probability, modelled as a rational.  Raises
when no rng is supplied, raises when the rate is at least 1, applies the
random broadcasted multiplier only when the mode is train and the rate is
positive, and otherwise returns the input unchanged.  The multiplier
branch (x times a Bernoulli keep mask divided by the keep probability)
draws randomness from the engine, which is outside the embedding, so that
branch is abstracted as the function argument mul of the input, the rng
and the rate. -/
def BroadcastedDropout {α ρ : Type} (mul : α → ρ → ℚ → α) (x : α)
    (rate : ℚ) (mode : String) (rng : Option ρ) : Except String α :=
  match rng with
  | none => Except.error "ValueError: BroadcastedDropout requires rng kwarg."
  | some r =>
    if 1 ≤ rate then
      Except.error "ValueError: Dropout rate must be lower than 1."
    else if mode = "train" ∧ 0 < rate then
      Except.ok (mul x r rate)
    else
      Except.ok x

/-! ## Map (reformer.py lines 32-87) -/

/-- A static array shape, as the tuples handed to new_params_and_state. -/
abbrev MapShape := List Nat

/-- The loop of Map.new_params_and_state lines 74-78: compare every
shape of the input list against the first shape and raise ValueError at
the first mismatch. -/
def map_check_loop (first : MapShape) : List MapShape → Except String Unit
  | [] => Except.ok ()
  | s :: rest =>
    if s ≠ first then
      Except.error "ValueError: Map layer can only be applied to list of elements with the same shapes."
    else
      map_check_loop first rest

/-- The method Map.new_params_and_state of reformer.py lines 69-79,
tracked for its raising behaviour.  With one section the input signature
is forwarded whole to the sub-layer init routine (no shape comparison at
all); otherwise the first shape is read (IndexError on an empty list),
the comparison loop runs only when check_shapes is set, and finally the
sub-layer init routine runs on the first shape.  The sub-layer
init routine itself is not under src and is modelled as succeeding, since
the claim concerns only the shape check owned by Map. -/
def Map.new_params_and_state (check_shapes : Bool) (n_sections : Nat)
    (input_shape : List MapShape) : Except String Unit :=
  if n_sections = 1 then
    Except.ok ()
  else
    match input_shape with
    | [] => Except.error "IndexError: input_shape[0]"
    | first :: _ =>
      if check_shapes then
        map_check_loop first input_shape
      else
        Except.ok ()

/-! ## Parameter trees (jax pytrees) -/

/-- A jax pytree of parameters: nested tuples and lists of arrays, as an
s-expression.  The parameterless sub-layers of the reversible blocks
carry the empty tuple, a tree without leaves. -/
inductive PTree where
  | leaf (v : Int)
  | nil
  | cons (head tail : PTree)
deriving DecidableEq

/-- jax.tree_util.tree_leaves: the list of array leaves of a pytree. -/
def tree_leaves : PTree → List Int
  | PTree.leaf v => [v]
  | PTree.nil => []
  | PTree.cons a b => tree_leaves a ++ tree_leaves b

/-- The cotangent the differentiation engine returns for a parameter
tree none of whose leaves received gradient: the same structure with
zeroed leaves. -/
def zero_tree : PTree → PTree
  | PTree.leaf _ => PTree.leaf 0
  | PTree.nil => PTree.nil
  | PTree.cons a b => PTree.cons (zero_tree a) (zero_tree b)

/-! ## ReversibleHalfResidual (reformer.py lines 193-249)

The layer works on a stack of activation tensors.  The trax stack
combinators Serial, Parallel, Dup, Swap, Add and SubtractTop are part of
the repository but their module is not under src; they are modelled from
the spec and from the stack-layout comments in reformer.py:
Parallel([], Dup()) duplicates the second stack element, Swap exchanges
the two top elements (comment at line 198: a pair (x1, x2) becomes the
triple (x2, x1, x2)), Add sums the two top elements, and SubtractTop
subtracts the top element from the one below it, inverting Add.

rngs: both the forward Serial and reverse/reverse_and_grad split the
incoming rng into n_layers pieces and hand piece i to the sub-layer at
position i (comments at lines 219-220), so the residual computation sees
one and the same rng value from every direction; the definitions below
take that per-sublayer rng directly. -/

/-- A residual sub-layer f together with the vector-Jacobian products
the differentiation engine derives for it: apply is the forward
computation from parameters, state, rng and input; vjpx maps the
linearization point and an output cotangent to the input cotangent;
vjpp maps them to the parameter cotangent. -/
structure ResidualF (α π σ ρ : Type) where
  apply : π → σ → ρ → α → α
  vjpx : π → σ → ρ → α → α → α
  vjpp : π → σ → ρ → α → α → π

/-- The combinator self.compute_residual of reformer.py lines 197-202:
Serial(Parallel([], Dup()), Swap(), Parallel(residual_layers, [], [])).
On the stack (x1, x2) it produces (f x2, x1, x2). -/
def compute_residual {α π σ ρ : Type} (F : ResidualF α π σ ρ)
    (p : π) (s : σ) (r : ρ) (x : α × α) : α × α × α :=
  (F.apply p s r x.2, x.1, x.2)

/-- The vector-Jacobian product of compute_residual at a linearization
point, assembled from the combinator structure exactly as jax.vjp
assembles it: the cotangent of the pass-through slot flows back to x1,
the cotangent of the residual slot flows through f whose input was the
second component of the point, and Dup accumulates it with the cotangent
of the copied slot. -/
def compute_residual_vjp {α π σ ρ : Type} [AddCommGroup α]
    (F : ResidualF α π σ ρ) (p : π) (s : σ) (r : ρ)
    (pt : α × α) (ct : α × α × α) : (α × α) × π :=
  ((ct.2.1, F.vjpx p s r pt.2 ct.1 + ct.2.2), F.vjpp p s r pt.2 ct.1)

/-- The combinator Parallel(Add(), []) of reformer.py line 206: sums the
two top stack elements and passes the third through. -/
def add_top {α : Type} [AddCommGroup α] (st : α × α × α) : α × α :=
  (st.1 + st.2.1, st.2.2)

/-- The combinator self.subtract_top = Parallel(SubtractTop(), []) of
reformer.py line 210: subtracts the top stack element from the one below
it (the inverse of add_top) and passes the third through. -/
def subtract_top {α : Type} [AddCommGroup α] (st : α × α × α) : α × α :=
  (st.2.1 - st.1, st.2.2)

/-- The forward pass of ReversibleHalfResidual (the Serial of lines
204-208): compute_residual followed by Parallel(Add(), []). -/
def rhr_forward {α π σ ρ : Type} [AddCommGroup α] (F : ResidualF α π σ ρ)
    (p : π) (s : σ) (r : ρ) (x : α × α) : α × α :=
  add_top (compute_residual F p s r x)

/-- ReversibleHalfResidual.reverse of reformer.py lines 213-224: runs
self.reverse_layers = [compute_residual, subtract_top] on the outputs
with the zipped params, state and split rngs; no tensor from the forward
pass appears among its arguments. -/
def rhr_reverse {α π σ ρ : Type} [AddCommGroup α] (F : ResidualF α π σ ρ)
    (p : π) (s : σ) (r : ρ) (y : α × α) : α × α :=
  subtract_top (compute_residual F p s r y)

/-- ReversibleHalfResidual.reverse_and_grad of reformer.py lines
226-249.  pAdd is params[-1], the parameter tree of the parameterless
Parallel(Add(), []) sub-layer.  The cotangent pair ct is expanded to the
three-slot cotangent (ct 0, ct 0, ct 1) of line 238, jax.vjp runs
compute_residual at the OUTPUT as linearization point (line 240), the
reconstruction applies subtract_top to the primal result (line 242), the
input and residual-parameter cotangents come from the vjp (line 246),
and line 247 asserts that params[-1] has no leaves before returning it
as the add-layer cotangent. -/
def rhr_reverse_and_grad {α π σ ρ : Type} [AddCommGroup α]
    (F : ResidualF α π σ ρ) (p : π) (pAdd : PTree) (s : σ) (r : ρ)
    (y ct : α × α) :
    Except String ((α × α) × ((α × α) × (π × PTree))) :=
  if tree_leaves pAdd = [] then
    Except.ok
      (subtract_top (compute_residual F p s r y),
        ((compute_residual_vjp F p s r y (ct.1, ct.1, ct.2)).1,
          ((compute_residual_vjp F p s r y (ct.1, ct.1, ct.2)).2, pAdd)))
  else
    Except.error "AssertionError: not tree_leaves(params[-1])"

/-- The naive two-pass path the spec compares against: run reverse to
reconstruct the inputs, then differentiate the forward pass at those
reconstructed inputs.  The backward pass through Parallel(Add(), [])
turns the output cotangent (c1, c2) into (c1, c1, c2), which then flows
through the vjp of compute_residual at the reconstructed inputs; the
parameterless add layer receives the zero cotangent of its empty tree. -/
def rhr_reverse_then_grad {α π σ ρ : Type} [AddCommGroup α]
    (F : ResidualF α π σ ρ) (p : π) (pAdd : PTree) (s : σ) (r : ρ)
    (y ct : α × α) : (α × α) × ((α × α) × (π × PTree)) :=
  (rhr_reverse F p s r y,
    ((compute_residual_vjp F p s r (rhr_reverse F p s r y) (ct.1, ct.1, ct.2)).1,
      ((compute_residual_vjp F p s r (rhr_reverse F p s r y) (ct.1, ct.1, ct.2)).2,
        zero_tree pAdd)))

/-! ## ReversibleAttentionHalfResidual (reformer.py lines 252-395)

The attention variant threads a five-element stack
(q, k, v, x1-or-y1, x2): self.pre_attention maps the pair to that stack,
ApplyAttentionWrapper applies the attention mechanism to the first three
elements, self.post_attention maps the attention output back to model
depth, and Parallel(Add(), []) adds the residual.  All tensors live in
one carrier type; q, k, v are kept as an explicit triple. -/

/-- The sub-layer handed to self.pre_attention (lines 295-300), with the
vector-Jacobian products of the combinator
Serial(Parallel([], Dup()), Swap(), Parallel(pre_attention, [], []))
derived from the engine as for compute_residual: apply sends the second
stream to the (q, k, v) triple. -/
structure PreAttF (α π σ ρ : Type) where
  apply : π → σ → ρ → α → α × α × α
  vjpx : π → σ → ρ → α → α × α × α → α
  vjpp : π → σ → ρ → α → α × α × α → π

/-- The attention mechanism (parameterless: its params slot is asserted
leafless at line 367): apply is the ordinary forward computation on the
(q, k, v) triple, vjpx its input vjp at a linearization point, and
fwdbwd the fused forward_and_backward capability the layer requires of
it (assert at line 301). -/
structure AttentionF (α σ ρ : Type) where
  apply : σ → ρ → α × α × α → α
  vjpx : σ → ρ → α × α × α → α → α × α × α
  fwdbwd : σ → ρ → α × α × α → α → α × (α × α × α)

/-- The sub-layer handed to self.post_attention = Parallel(post, [], [])
(line 303); the documented caller obligation is that apply is linear in
its input for fixed parameters. -/
structure PostAttF (α π σ ρ : Type) where
  apply : π → σ → ρ → α → α
  vjpx : π → σ → ρ → α → α → α
  vjpp : π → σ → ρ → α → α → π

/-- Forward pass of the combinator self.pre_attention on the pair
(x1, x2): the stack ((q, k, v), x1, x2) with (q, k, v) computed from
x2. -/
def pre_attention_fwd {α π σ ρ : Type} (P : PreAttF α π σ ρ)
    (p : π) (s : σ) (r : ρ) (x : α × α) : (α × α × α) × α × α :=
  (P.apply p s r x.2, x.1, x.2)

/-- Vector-Jacobian product of the combinator self.pre_attention at a
linearization point, assembled from the combinator structure by the
engine (the pre_attention_vjpfun of line 347). -/
def pre_attention_vjp {α π σ ρ : Type} [AddCommGroup α]
    (P : PreAttF α π σ ρ) (p : π) (s : σ) (r : ρ)
    (pt : α × α) (ct : (α × α × α) × α × α) : (α × α) × π :=
  ((ct.2.1, P.vjpx p s r pt.2 ct.1 + ct.2.2), P.vjpp p s r pt.2 ct.1)

/-- Forward pass of ApplyAttentionWrapper = Parallel(attention, [], [])
(lines 252-257): attention consumes the (q, k, v) triple, the two
passthrough slots are untouched. -/
def apply_attention_fwd {α σ ρ : Type} (A : AttentionF α σ ρ)
    (s : σ) (r : ρ) (st : (α × α × α) × α × α) : α × α × α :=
  (A.apply s r st.1, st.2.1, st.2.2)

/-- ApplyAttentionWrapper.forward_and_backward of lines 260-272: the
attention forward_and_backward runs on the (q, k, v) triple and the
cotangent of the attention output, and the passthrough slots of both the
stack and the cotangent ride along. -/
def apply_attention_fwdbwd {α σ ρ : Type} (A : AttentionF α σ ρ)
    (s : σ) (r : ρ) (st : (α × α × α) × α × α) (ct : α × α × α) :
    (α × α × α) × ((α × α × α) × α × α) :=
  (((A.fwdbwd s r st.1 ct.1).1, st.2.1, st.2.2),
    ((A.fwdbwd s r st.1 ct.1).2, ct.2.1, ct.2.2))

/-- Forward pass of the combinator self.post_attention on the stack
(o, a, b). -/
def post_attention_fwd {α π σ ρ : Type} (Q : PostAttF α π σ ρ)
    (p : π) (s : σ) (r : ρ) (st : α × α × α) : α × α × α :=
  (Q.apply p s r st.1, st.2.1, st.2.2)

/-- Vector-Jacobian product of self.post_attention with respect to its
stack inputs at a linearization point (the post_attention_vjpfun of line
361). -/
def post_attention_vjpx {α π σ ρ : Type} (Q : PostAttF α π σ ρ)
    (p : π) (s : σ) (r : ρ) (pt : α × α × α) (ct : α × α × α) :
    α × α × α :=
  (Q.vjpx p s r pt.1 ct.1, ct.2.1, ct.2.2)

/-- Vector-Jacobian product of self.post_attention with respect to its
parameters at a linearization point (the vjp of call_post_attention2 at
line 379). -/
def post_attention_vjpp {α π σ ρ : Type} (Q : PostAttF α π σ ρ)
    (p : π) (s : σ) (r : ρ) (pt : α × α × α) (ct : α × α × α) : π :=
  Q.vjpp p s r pt.1 ct.1

/-- The forward pass of ReversibleAttentionHalfResidual (the Serial of
lines 305-311): pre_attention, the attention wrapper, post_attention,
then Parallel(Add(), []).  r0, r1, r2 are the split rng pieces of the
corresponding sub-layers. -/
def rahr_forward {α π1 π3 σ1 σA σ3 ρ : Type} [AddCommGroup α]
    (P : PreAttF α π1 σ1 ρ) (A : AttentionF α σA ρ) (Q : PostAttF α π3 σ3 ρ)
    (p1 : π1) (p3 : π3) (s1 : σ1) (sA : σA) (s3 : σ3) (r0 r1 r2 : ρ)
    (x : α × α) : α × α :=
  add_top (post_attention_fwd Q p3 s3 r2
    (apply_attention_fwd A sA r1 (pre_attention_fwd P p1 s1 r0 x)))

/-- ReversibleAttentionHalfResidual.reverse of lines 321-333: run
self.reverse_layers = [pre_attention, attention, post_attention,
subtract_top] on the outputs; the inputs are reconstructed from the
outputs and the parameters alone. -/
def rahr_reverse {α π1 π3 σ1 σA σ3 ρ : Type} [AddCommGroup α]
    (P : PreAttF α π1 σ1 ρ) (A : AttentionF α σA ρ) (Q : PostAttF α π3 σ3 ρ)
    (p1 : π1) (p3 : π3) (s1 : σ1) (sA : σA) (s3 : σ3) (r0 r1 r2 : ρ)
    (y : α × α) : α × α :=
  subtract_top (post_attention_fwd Q p3 s3 r2
    (apply_attention_fwd A sA r1 (pre_attention_fwd P p1 s1 r0 y)))

/-- ReversibleAttentionHalfResidual.reverse_and_grad of lines 335-395,
line by line: jax.vjp of call_pre_attention at the output (line 347)
yields the primal stack and pre_attention_vjpfun; the two-slot cotangent
becomes saved_ct = (ct 0, ct 0, ct 1) (line 351); the input-side vjp of
post_attention is taken at the dummy linearization point
(stack[-3], stack[-2], stack[-1]) rather than at its actual inputs
(lines 358-362); attention.forward_and_backward recovers the attention
output while backpropagating (line 365); line 367 asserts the attention
params have no leaves; pre_attention_vjpfun produces the input and
pre-attention parameter cotangents (line 371); the parameter-side vjp of
post_attention runs at the recovered actual inputs with saved_ct (lines
375-380); subtract_top reconstructs the inputs (line 383); and line 386
asserts the add-layer params have no leaves.  pA is params[1] (the
attention wrapper), pAdd is params[-1] (the add layer). -/
def rahr_reverse_and_grad {α π1 π3 σ1 σA σ3 ρ : Type} [AddCommGroup α]
    (P : PreAttF α π1 σ1 ρ) (A : AttentionF α σA ρ) (Q : PostAttF α π3 σ3 ρ)
    (p1 : π1) (pA : PTree) (p3 : π3) (pAdd : PTree)
    (s1 : σ1) (sA : σA) (s3 : σ3) (r0 r1 r2 : ρ) (y ct : α × α) :
    Except String ((α × α) × ((α × α) × (π1 × PTree × π3 × PTree))) :=
  let stack := pre_attention_fwd P p1 s1 r0 y
  let saved_ct : α × α × α := (ct.1, ct.1, ct.2)
  let dummy : α × α × α := (stack.1.2.2, stack.2.1, stack.2.2)
  let ct1 := post_attention_vjpx Q p3 s3 r2 dummy saved_ct
  let fb := apply_attention_fwdbwd A sA r1 stack ct1
  if tree_leaves pA = [] then
    let vjpre := pre_attention_vjp P p1 s1 r0 y fb.2
    let stack3 := post_attention_fwd Q p3 s3 r2 fb.1
    let postp_ct := post_attention_vjpp Q p3 s3 r2 fb.1 saved_ct
    if tree_leaves pAdd = [] then
      Except.ok (subtract_top stack3, (vjpre.1, (vjpre.2, pA, postp_ct, pAdd)))
    else
      Except.error "AssertionError: not tree_leaves(params[-1])"
  else
    Except.error "AssertionError: not tree_leaves(params[1])"

/-- The naive two-pass path for the attention variant: reconstruct the
inputs with reverse, then differentiate the forward pass at those
inputs, each vjp taken at the actual intermediate values of that forward
pass; the two parameterless sub-layers receive the zero cotangents of
their empty trees. -/
def rahr_reverse_then_grad {α π1 π3 σ1 σA σ3 ρ : Type} [AddCommGroup α]
    (P : PreAttF α π1 σ1 ρ) (A : AttentionF α σA ρ) (Q : PostAttF α π3 σ3 ρ)
    (p1 : π1) (pA : PTree) (p3 : π3) (pAdd : PTree)
    (s1 : σ1) (sA : σA) (s3 : σ3) (r0 r1 r2 : ρ) (y ct : α × α) :
    (α × α) × ((α × α) × (π1 × PTree × π3 × PTree)) :=
  let x := rahr_reverse P A Q p1 p3 s1 sA s3 r0 r1 r2 y
  let qkv := P.apply p1 s1 r0 x.2
  let o := A.apply sA r1 qkv
  let saved_ct : α × α × α := (ct.1, ct.1, ct.2)
  let ctp := post_attention_vjpx Q p3 s3 r2 (o, x.1, x.2) saved_ct
  let qkv_ct := A.vjpx sA r1 qkv ctp.1
  let vjpre := pre_attention_vjp P p1 s1 r0 x (qkv_ct, ctp.2.1, ctp.2.2)
  let postp_ct := post_attention_vjpp Q p3 s3 r2 (o, x.1, x.2) saved_ct
  (x, (vjpre.1, (vjpre.2, zero_tree pA, postp_ct, zero_tree pAdd)))

/-! ## Concrete instances used to evaluate the development on closed inputs -/

/-- A concrete residual sub-layer over integer tensors: multiplication
by the parameter, with its exact vector-Jacobian products. -/
def cF : ResidualF Int Int Unit Unit :=
  ResidualF.mk (fun p _ _ t => p * t) (fun p _ _ _ c => p * c)
    (fun _ _ _ pt c => pt * c)

/-- A concrete pre-attention sub-layer: builds a (q, k, v) triple from
the input, with matching vector-Jacobian products. -/
def cP : PreAttF Int Int Unit Unit :=
  PreAttF.mk (fun p _ _ t => (p * t, t, t))
    (fun p _ _ _ c => p * c.1 + c.2.1 + c.2.2)
    (fun _ _ _ pt c => pt * c.1)

/-- Forward computation of the concrete attention mechanism. -/
def cAapply (q : Int × Int × Int) : Int := q.1 + q.2.1 + q.2.2

/-- Input vector-Jacobian product of the concrete attention mechanism. -/
def cAvjpx (c : Int) : Int × Int × Int := (c, c, c)

/-- A concrete attention mechanism whose forward_and_backward really is
the fused pair of its forward computation and its input vjp. -/
def cA : AttentionF Int Unit Unit :=
  AttentionF.mk (fun _ _ q => cAapply q) (fun _ _ _ c => cAvjpx c)
    (fun _ _ q c => (cAapply q, cAvjpx c))

/-- A concrete post-attention sub-layer, linear in its input
(multiplication by the parameter), so its input vjp is independent of
the linearization point. -/
def cQ : PostAttF Int Int Unit Unit :=
  PostAttF.mk (fun p _ _ t => p * t) (fun p _ _ _ c => p * c)
    (fun _ _ _ pt c => pt * c)

/-! ## Helper lemmas -/

/-- A leafless pytree is its own zero cotangent. -/
theorem zero_tree_of_leafless (t : PTree) (h : tree_leaves t = []) :
    zero_tree t = t := by
  induction t with
  | leaf v => simp [tree_leaves] at h
  | nil => rfl
  | cons a b iha ihb =>
    simp only [tree_leaves, List.append_eq_nil] at h
    simp [zero_tree, iha h.1, ihb h.2]

/-- If some element of the list differs from the reference shape, the
comparison loop of Map.new_params_and_state raises. -/
theorem map_check_loop_error (first : MapShape) (l : List MapShape)
    (s : MapShape) (hs : s ∈ l) (hne : s ≠ first) :
    exceptIsError (map_check_loop first l) = true := by
  induction l with
  | nil => cases hs
  | cons a t ih =>
    by_cases ha : a ≠ first
    · simp [map_check_loop, ha, exceptIsError]
    · push_neg at ha
      rcases List.mem_cons.mp hs with h1 | h1
      · exact absurd (h1.trans ha) hne
      · simpa [map_check_loop, ha] using ih h1

/-! ## Claim theorems -/

/-- C1: for every reversible half-residual layer (over any residual
sub-layer F) and all parameters, state and input pair, applying reverse
to the outputs of forward with the same params, state and rng
reconstructs exactly the original inputs; reverse takes only the
outputs, parameters, state and rng, no tensor saved from the forward
pass. -/
theorem claim_C1_reverse_roundtrip {α π σ ρ : Type} [AddCommGroup α]
    (F : ResidualF α π σ ρ) (p : π) (s : σ) (r : ρ) (x : α × α) :
    rhr_reverse F p s r (rhr_forward F p s r x) = x := by
  cases x with
  | mk x1 x2 =>
    simp [rhr_reverse, rhr_forward, compute_residual, add_top, subtract_top]

/-- C1 witness: the round trip evaluated at a concrete layer and
input. -/
theorem claim_C1_reverse_roundtrip_witness :
    rhr_reverse cF 2 () () (rhr_forward cF 2 () () ((5 : Int), 7)) =
      ((5 : Int), 7) :=
  claim_C1_reverse_roundtrip cF 2 () () ((5 : Int), 7)

/-- C3 counterexample: the claim says forward applies the residual
computation F to the first stream x1 and returns y1 = x1 plus that term.
At the layer that multiplies by the parameter 1 (the identity residual)
and the input pair (0, 1), the code returns y1 = 1 because the residual
is computed from x2 = 1, while the claimed value x1 + F(x1) = 0. -/
theorem claim_C3_counterexample :
    (rhr_forward cF 1 () () ((0 : Int), 1)).1 ≠
      (0 : Int) + cF.apply 1 () () 0 := by
  decide

/-- C3 amended: forward computes the residual term by applying F to the
SECOND stream x2, and returns (y1, y2) with y1 = x1 + F(x2) and y2 = x2
passed through unchanged.  (The docstring of
ReversibleAttentionHalfResidual at reformer.py line 279 describes the
residual as computed from x1; the combinator stack built at lines
196-208 computes it from x2, and reversibility forces that choice.) -/
theorem claim_C3_forward_applies_f_to_x2 {α π σ ρ : Type} [AddCommGroup α]
    (F : ResidualF α π σ ρ) (p : π) (s : σ) (r : ρ) (x : α × α) :
    rhr_forward F p s r x = (x.1 + F.apply p s r x.2, x.2) := by
  cases x with
  | mk x1 x2 =>
    simp [rhr_forward, compute_residual, add_top, add_comm]

/-- C2: for both reversible half-residual variants and all valid
parameters, state, outputs and cotangent, the (reconstructed inputs,
(input cotangent, parameter cotangents)) pair returned by the fused
reverse_and_grad equals the result of running reverse and then a
separate backward pass through forward.  Validity means: the
parameterless sub-layers carry leafless trees (the asserted invariant),
the attention mechanism honours its forward_and_backward contract, and
the post-attention sub-layer is linear in its input for the given
parameters (its input vjp is independent of the linearization point),
which is the documented caller obligation the fusion exploits. -/
theorem claim_C2_fused_grad_equals_two_pass :
    (∀ {α π σ ρ : Type} [AddCommGroup α] (F : ResidualF α π σ ρ) (p : π)
        (pAdd : PTree) (s : σ) (r : ρ) (y ct : α × α),
      tree_leaves pAdd = [] →
      rhr_reverse_and_grad F p pAdd s r y ct =
        Except.ok (rhr_reverse_then_grad F p pAdd s r y ct))
    ∧ (∀ {α π1 π3 σ1 σA σ3 ρ : Type} [AddCommGroup α]
        (P : PreAttF α π1 σ1 ρ) (A : AttentionF α σA ρ)
        (Q : PostAttF α π3 σ3 ρ) (p1 : π1) (pA : PTree) (p3 : π3)
        (pAdd : PTree) (s1 : σ1) (sA : σA) (s3 : σ3) (r0 r1 r2 : ρ)
        (y ct : α × α) (L : α → α),
      (∀ qkv c, A.fwdbwd sA r1 qkv c = (A.apply sA r1 qkv, A.vjpx sA r1 qkv c)) →
      (∀ pt c, Q.vjpx p3 s3 r2 pt c = L c) →
      tree_leaves pA = [] → tree_leaves pAdd = [] →
      rahr_reverse_and_grad P A Q p1 pA p3 pAdd s1 sA s3 r0 r1 r2 y ct =
        Except.ok (rahr_reverse_then_grad P A Q p1 pA p3 pAdd s1 sA s3 r0 r1 r2 y ct)) := by
  constructor
  · intro α π σ ρ inst F p pAdd s r y ct h
    simp [rhr_reverse_and_grad, h, rhr_reverse_then_grad,
      zero_tree_of_leafless pAdd h, rhr_reverse, compute_residual_vjp,
      subtract_top, compute_residual]
  · intro α π1 π3 σ1 σA σ3 ρ inst P A Q p1 pA p3 pAdd s1 sA s3 r0 r1 r2 y
      ct L hfb hQ hA hAdd
    simp [rahr_reverse_and_grad, rahr_reverse_then_grad, rahr_reverse,
      pre_attention_fwd, pre_attention_vjp, apply_attention_fwd,
      apply_attention_fwdbwd, post_attention_fwd, post_attention_vjpx,
      post_attention_vjpp, subtract_top, hfb, hQ, hA, hAdd,
      zero_tree_of_leafless pA hA, zero_tree_of_leafless pAdd hAdd]

/-- C2 witness: the fused and two-pass paths agree on concrete layers
and inputs for both variants; the hypotheses hold for the concrete
layers by computation. -/
theorem claim_C2_fused_grad_equals_two_pass_witness :
    rhr_reverse_and_grad cF 2 PTree.nil () () ((5 : Int), 7) (1, 1) =
      Except.ok (rhr_reverse_then_grad cF 2 PTree.nil () () ((5 : Int), 7) (1, 1))
    ∧ rahr_reverse_and_grad cP cA cQ 2 PTree.nil 3 PTree.nil () () () () () ()
        ((5 : Int), 7) (1, 1) =
      Except.ok (rahr_reverse_then_grad cP cA cQ 2 PTree.nil 3 PTree.nil
        () () () () () () ((5 : Int), 7) (1, 1)) :=
  ⟨claim_C2_fused_grad_equals_two_pass.1 cF 2 PTree.nil () () ((5 : Int), 7)
      (1, 1) rfl,
    claim_C2_fused_grad_equals_two_pass.2 cP cA cQ 2 PTree.nil 3 PTree.nil
      () () () () () () ((5 : Int), 7) (1, 1) (fun c => 3 * c)
      (fun _ _ => rfl) (fun _ _ => rfl) rfl rfl⟩

/-- C4: for a Map layer with n_sections = k given a list of
k input shapes, with check_shapes set the init routine raises whenever
any two of the shapes differ, and with check_shapes unset it never
raises a shape-mismatch error (it returns normally) regardless of shape
equality. -/
theorem claim_C4_map_shape_check (k : Nat) (shapes : List MapShape)
    (hlen : shapes.length = k) (hk : 0 < k) :
    ((∃ i j : Fin shapes.length, shapes.get i ≠ shapes.get j) →
        exceptIsError (Map.new_params_and_state true k shapes) = true)
    ∧ Map.new_params_and_state false k shapes = Except.ok () := by
  constructor
  · rintro ⟨i, j, hij⟩
    by_cases hk1 : k = 1
    · exfalso
      have hi : (i : Nat) = 0 := by
        have := i.isLt
        omega
      have hj : (j : Nat) = 0 := by
        have := j.isLt
        omega
      exact hij (congrArg shapes.get (Fin.ext (hi.trans hj.symm)))
    · cases shapes with
      | nil =>
        exact absurd (hlen ▸ hk) (by simp)
      | cons first rest =>
        have hex : ∃ s, s ∈ first :: rest ∧ s ≠ first := by
          by_contra hall
          push_neg at hall
          have h1 : (first :: rest).get i = first :=
            hall _ (List.get_mem (first :: rest) i.1 i.2)
          have h2 : (first :: rest).get j = first :=
            hall _ (List.get_mem (first :: rest) j.1 j.2)
          exact hij (h1.trans h2.symm)
        obtain ⟨s, hsmem, hsne⟩ := hex
        simp only [Map.new_params_and_state, if_neg hk1]
        simpa using map_check_loop_error first (first :: rest) s hsmem hsne
  · by_cases hk1 : k = 1
    · simp [Map.new_params_and_state, hk1]
    · cases shapes with
      | nil => exact absurd (hlen ▸ hk) (by simp)
      | cons first rest => simp [Map.new_params_and_state, hk1]

/-- C4 witness: with two differing shapes the checked init routine
raises, and the unchecked one returns normally. -/
theorem claim_C4_map_shape_check_witness :
    exceptIsError (Map.new_params_and_state true 2 [[2], [3]]) = true
    ∧ Map.new_params_and_state false 2 [[2], [3]] = Except.ok () :=
  ⟨(claim_C4_map_shape_check 2 [[2], [3]] rfl (by decide)).1
      ⟨⟨0, by decide⟩, ⟨1, by decide⟩, by decide⟩,
    (claim_C4_map_shape_check 2 [[2], [3]] rfl (by decide)).2⟩

/-- C5: for every array whose axis-1 extent is divisible by n,
Unchunk with n sections applied to the result of Chunk with n sections
returns exactly the original array, and Chunk raises (its assert fails)
when the axis-1 extent is not divisible by n. -/
theorem claim_C5_chunk_unchunk_roundtrip (n : Nat) (x : NdArray)
    (d0 d1 : Nat) (rest : List Nat) (hn : 0 < n)
    (hshape : x.shape = d0 :: d1 :: rest) :
    (d1 % n = 0 → (Chunk n x).bind (Unchunk n) = Except.ok x)
    ∧ (d1 % n ≠ 0 → exceptIsError (Chunk n x) = true) := by
  cases x with
  | mk shape data =>
    simp only at hshape
    subst hshape
    constructor
    · intro hdvd
      simp only [Chunk, if_pos hdvd, Except.bind, Unchunk,
        if_pos (Nat.mul_mod_left d0 n)]
      rw [Nat.mul_div_cancel _ hn, Nat.div_mul_cancel (Nat.dvd_of_mod_eq_zero hdvd)]
    · intro hnd
      simp [Chunk, hnd, exceptIsError]

/-- C5 witness: the round trip at a concrete 2 by 4 array with 2
sections, and the assertion failure when 3 is not divisible by 2. -/
theorem claim_C5_chunk_unchunk_roundtrip_witness :
    (Chunk 2 (NdArray.mk [1, 4] [0, 1, 2, 3])).bind (Unchunk 2) =
      Except.ok (NdArray.mk [1, 4] [0, 1, 2, 3])
    ∧ exceptIsError (Chunk 2 (NdArray.mk [1, 3] [0, 1, 2])) = true :=
  ⟨(claim_C5_chunk_unchunk_roundtrip 2 (NdArray.mk [1, 4] [0, 1, 2, 3])
      1 4 [] (by decide) rfl).1 (by decide),
    (claim_C5_chunk_unchunk_roundtrip 2 (NdArray.mk [1, 3] [0, 1, 2])
      1 3 [] (by decide) rfl).2 (by decide)⟩

/-- C6 counterexample: the claim says that for mode other than train the
layer returns its input unchanged regardless of the rate, and that at
rate 0 it is the identity in any mode.  At rate 1 in mode eval the code
raises ValueError instead of returning the input, and at rate 0 in mode
train with no rng supplied it raises ValueError as well. -/
theorem claim_C6_counterexample :
    BroadcastedDropout (fun (x : Int) (_ : Unit) (_ : ℚ) => x) 5 1 "eval"
        (some ()) ≠ Except.ok 5
    ∧ BroadcastedDropout (fun (x : Int) (_ : Unit) (_ : ℚ) => x) 5 0 "train"
        none ≠ Except.ok 5 := by
  constructor
  · intro h
    norm_num [BroadcastedDropout] at h
    exact Except.noConfusion h
  · intro h
    norm_num [BroadcastedDropout] at h
    exact Except.noConfusion h

/-- C6 amended: provided an rng is supplied, BroadcastedDropout at rate
0 returns its input unchanged in any mode, and whenever the mode is not
train it returns its input unchanged for every rate below 1 (rates of 1
or more raise ValueError in every mode, and a missing rng raises in
every mode). -/
theorem claim_C6_dropout_identity {α ρ : Type} (mul : α → ρ → ℚ → α)
    (x : α) (rate : ℚ) (mode : String) (r : ρ) :
    (rate = 0 → BroadcastedDropout mul x rate mode (some r) = Except.ok x)
    ∧ (mode ≠ "train" → rate < 1 →
        BroadcastedDropout mul x rate mode (some r) = Except.ok x) := by
  constructor
  · intro h0
    subst h0
    norm_num [BroadcastedDropout]
  · intro hm hr
    have h1 : ¬(1 ≤ rate) := not_le.mpr hr
    simp [BroadcastedDropout, h1, hm]

/-- C6 witness: identity behaviour evaluated at rate 0 in train mode and
at rate one half in eval mode. -/
theorem claim_C6_dropout_identity_witness :
    BroadcastedDropout (fun (x : Int) (_ : Unit) (_ : ℚ) => x) 5 0 "train"
        (some ()) = Except.ok 5
    ∧ BroadcastedDropout (fun (x : Int) (_ : Unit) (_ : ℚ) => x) 5 (1 / 2)
        "eval" (some ()) = Except.ok 5 :=
  ⟨(claim_C6_dropout_identity _ 5 0 "train" ()).1 rfl,
    (claim_C6_dropout_identity _ 5 (1 / 2) "eval" ()).2 (by decide)
      (by norm_num)⟩

/-- C7: inside the scope opened by use_backend(name) the override is
some name and the zero-argument backend() call selects exactly the
provider that the selection rule assigns to name (the value backend
returns for name with no override in force); after the scope exits,
whether the body returned normally or raised, the override is exactly
its value from before entry, so no permanent mutation remains.  The body
is quantified over every state transformer, normal or raising. -/
theorem claim_C7_use_backend_scoped_override {ε β : Type} (name : String)
    (st : BackendState) (body : BackendState → Except ε β × BackendState) :
    (use_backend name body st).2 = st
    ∧ (use_backend name body st).1 = (body (some name)).1
    ∧ backend (some name) backendDefaultName = backend none name := by
  refine ⟨rfl, rfl, ?_⟩
  by_cases h : name = ""
  · subst h
    decide
  · have hb : (name != "") = true := bne_iff_ne.mpr h
    simp [backend, overrideActive, hb, Option.getD, h]

/-- C7 witness: the three conjuncts at the name numpy, the empty prior
override, and a body that raises. -/
theorem claim_C7_use_backend_scoped_override_witness :
    (use_backend "numpy" (fun st => ((Except.error 0 : Except Nat Nat), st))
        none).2 = none
    ∧ (use_backend "numpy" (fun st => ((Except.error 0 : Except Nat Nat), st))
        none).1 = ((fun st => ((Except.error 0 : Except Nat Nat), st))
          (some "numpy")).1
    ∧ backend (some "numpy") backendDefaultName = backend none "numpy" :=
  claim_C7_use_backend_scoped_override "numpy" none
    (fun st => ((Except.error 0 : Except Nat Nat), st))

/-- C8: in the reversible-gradient fusion of both variants the
parameter trees of the parameterless sub-layers (the residual add and
the attention wrapper) are asserted leafless; when they are leafless the
assertions pass and the returned cotangent for each such sub-layer is
that very tree, and when one of them has a leaf the call fails via the
assertion instead of handling the gradients. -/
theorem claim_C8_empty_param_assertions :
    (∀ {α π σ ρ : Type} [AddCommGroup α] (F : ResidualF α π σ ρ) (p : π)
        (pAdd : PTree) (s : σ) (r : ρ) (y ct : α × α),
      tree_leaves pAdd = [] →
      ∃ res, rhr_reverse_and_grad F p pAdd s r y ct = Except.ok res
        ∧ res.2.2.2 = pAdd)
    ∧ (∀ {α π σ ρ : Type} [AddCommGroup α] (F : ResidualF α π σ ρ) (p : π)
        (pAdd : PTree) (s : σ) (r : ρ) (y ct : α × α),
      tree_leaves pAdd ≠ [] →
      exceptIsError (rhr_reverse_and_grad F p pAdd s r y ct) = true)
    ∧ (∀ {α π1 π3 σ1 σA σ3 ρ : Type} [AddCommGroup α]
        (P : PreAttF α π1 σ1 ρ) (A : AttentionF α σA ρ)
        (Q : PostAttF α π3 σ3 ρ) (p1 : π1) (pA : PTree) (p3 : π3)
        (pAdd : PTree) (s1 : σ1) (sA : σA) (s3 : σ3) (r0 r1 r2 : ρ)
        (y ct : α × α),
      tree_leaves pA = [] → tree_leaves pAdd = [] →
      ∃ res, rahr_reverse_and_grad P A Q p1 pA p3 pAdd s1 sA s3 r0 r1 r2 y ct
          = Except.ok res
        ∧ res.2.2.2.1 = pA ∧ res.2.2.2.2.2 = pAdd)
    ∧ (∀ {α π1 π3 σ1 σA σ3 ρ : Type} [AddCommGroup α]
        (P : PreAttF α π1 σ1 ρ) (A : AttentionF α σA ρ)
        (Q : PostAttF α π3 σ3 ρ) (p1 : π1) (pA : PTree) (p3 : π3)
        (pAdd : PTree) (s1 : σ1) (sA : σA) (s3 : σ3) (r0 r1 r2 : ρ)
        (y ct : α × α),
      tree_leaves pA ≠ [] ∨ tree_leaves pAdd ≠ [] →
      exceptIsError
        (rahr_reverse_and_grad P A Q p1 pA p3 pAdd s1 sA s3 r0 r1 r2 y ct)
          = true) := by
  refine ⟨?_, ?_, ?_, ?_⟩
  · intro α π σ ρ inst F p pAdd s r y ct h
    unfold rhr_reverse_and_grad
    rw [if_pos h]
    exact ⟨_, rfl, rfl⟩
  · intro α π σ ρ inst F p pAdd s r y ct h
    unfold rhr_reverse_and_grad
    rw [if_neg h]
    rfl
  · intro α π1 π3 σ1 σA σ3 ρ inst P A Q p1 pA p3 pAdd s1 sA s3 r0 r1 r2 y
      ct hA hAdd
    simp only [rahr_reverse_and_grad]
    rw [if_pos hA, if_pos hAdd]
    exact ⟨_, rfl, rfl, rfl⟩
  · intro α π1 π3 σ1 σA σ3 ρ inst P A Q p1 pA p3 pAdd s1 sA s3 r0 r1 r2 y
      ct h
    simp only [rahr_reverse_and_grad]
    rcases h with h | h
    · rw [if_neg h]
      rfl
    · by_cases hA : tree_leaves pA = []
      · rw [if_pos hA, if_neg h]
        rfl
      · rw [if_neg hA]
        rfl

/-- C8 witness: the four conjuncts at concrete layers, with the empty
tuple as the leafless tree and a one-leaf tree as the violating one. -/
theorem claim_C8_empty_param_assertions_witness :
    (∃ res, rhr_reverse_and_grad cF 2 PTree.nil () () ((5 : Int), 7) (1, 1)
        = Except.ok res ∧ res.2.2.2 = PTree.nil)
    ∧ exceptIsError (rhr_reverse_and_grad cF 2 (PTree.leaf 4) () ()
        ((5 : Int), 7) (1, 1)) = true
    ∧ (∃ res, rahr_reverse_and_grad cP cA cQ 2 PTree.nil 3 PTree.nil
          () () () () () () ((5 : Int), 7) (1, 1) = Except.ok res
        ∧ res.2.2.2.1 = PTree.nil ∧ res.2.2.2.2.2 = PTree.nil)
    ∧ exceptIsError (rahr_reverse_and_grad cP cA cQ 2 (PTree.leaf 4) 3
        PTree.nil () () () () () () ((5 : Int), 7) (1, 1)) = true :=
  ⟨claim_C8_empty_param_assertions.1 cF 2 PTree.nil () () ((5 : Int), 7)
      (1, 1) rfl,
    claim_C8_empty_param_assertions.2.1 cF 2 (PTree.leaf 4) () ()
      ((5 : Int), 7) (1, 1) (by decide),
    claim_C8_empty_param_assertions.2.2.1 cP cA cQ 2 PTree.nil 3 PTree.nil
      () () () () () () ((5 : Int), 7) (1, 1) rfl rfl,
    claim_C8_empty_param_assertions.2.2.2 cP cA cQ 2 (PTree.leaf 4) 3
      PTree.nil () () () () () () ((5 : Int), 7) (1, 1)
      (Or.inl (by decide))⟩

/-- C9: a ShapeDtype is the pair of the shape and dtype it was
constructed from (the class defines only the constructor and a repr, and
the pure structure admits no mutating operation), and shape_dtype_for
returns a ShapeDtype carrying exactly the shape and dtype of its
argument. -/
theorem claim_C9_shape_dtype (s : List Nat) (d : Dtype) (obj : NdLike) :
    (ShapeDtype.mk s d).shape = s
    ∧ (ShapeDtype.mk s d).dtype = d
    ∧ shape_dtype_for obj = ShapeDtype.mk obj.shape obj.dtype
    ∧ (shape_dtype_for obj).shape = obj.shape
    ∧ (shape_dtype_for obj).dtype = obj.dtype :=
  ⟨rfl, rfl, rfl, rfl, rfl⟩

/-- C10: with no override in force, backend applied to any name other
than numpy returns the jax provider (unknown and misspelled names fall
back to jax silently; the function is total, with no error branch);
when a truthy override is active the name argument is ignored entirely;
and every call returns one of the two providers. -/
theorem claim_C10_backend_fallback :
    (∀ name : String, name ≠ "numpy" → backend none name = Provider.jax)
    ∧ (∀ o : String, o ≠ "" → ∀ n1 n2 : String,
        backend (some o) n1 = backend (some o) n2)
    ∧ (∀ (st : BackendState) (name : String),
        backend st name = Provider.jax ∨ backend st name = Provider.numpy) := by
  refine ⟨?_, ?_, ?_⟩
  · intro name h
    simp [backend, overrideActive, h]
  · intro o ho n1 n2
    have hb : (o != "") = true := bne_iff_ne.mpr ho
    simp [backend, overrideActive, hb, Option.getD, ho]
  · intro st name
    simp only [backend]
    by_cases h : (if overrideActive st then st.getD name else name) = "numpy"
    · rw [if_pos h]
      right
      rfl
    · rw [if_neg h]
      left
      rfl

/-- C10 witness: a misspelled name falls back to jax, and under the
numpy override the name argument makes no difference. -/
theorem claim_C10_backend_fallback_witness :
    backend none "jaxx" = Provider.jax
    ∧ backend (some "numpy") "jax" = backend (some "numpy") "tf" :=
  ⟨claim_C10_backend_fallback.1 "jaxx" (by decide),
    claim_C10_backend_fallback.2.1 "numpy" (by decide) "jax" "tf"⟩

end Trax
